import Mathlib

/-!
Shallow embedding of the METAR decoder of this repository
(`src/services.rs`, `src/utils.rs`, `src/models.rs`) and proofs about it.

Modelling conventions:
* Rust `&str` tokens are modelled as `List Char`; the Rust byte indices and
  byte lengths coincide with character indices and lengths on ASCII data,
  which is the data every theorem below exercises.
* Rust byte-slice expressions `s[a..b]` that can fall out of range make the
  whole decoder panic; the model makes the enclosing function return
  `none` at exactly those places (`windStage`, and hence `parse_metar`,
  return an `Option`).  All other slices in the source are guarded by
  explicit length checks and cannot go out of range.
* Rust `f32` values are modelled exactly as rationals (`ℚ`); the decimal
  literal `33.8639` is modelled as the exact rational `338639/10000`.
  The `as u32` float-to-integer cast is modelled by `f32_as_u32`
  (saturating, truncating toward zero), and `u32`/`i32` string parsing is
  modelled by `parseU32`/`parseI32` including the overflow failure and the
  optional leading sign that Rust `FromStr` accepts.  `parseF32` models
  the plain decimal fragment of the Rust `f32` grammar (optional sign,
  digits, optional fractional part), which is the fragment the inputs of the decoder
  exercise.
* Rust integer division on `i32` truncates toward zero and is therefore
  modelled with `Int.tdiv`.
-/

/-- A METAR token: one whitespace-separated word of the raw report. -/
abbrev Token := List Char

/-- Character list of a string literal (model of a Rust `&str` constant). -/
def tok (s : String) : Token := s.toList

/-- Rebuild a `String` from a token, model of Rust `to_string` on a token. -/
def tokStr (t : Token) : String := String.mk t

/-- Model of Rust `{:02}` formatting of an unsigned integer. -/
def pad2 (n : Nat) : String := if n < 10 then "0" ++ toString n else toString n

/-- Numeric value of an ASCII digit character. -/
def digitVal (c : Char) : Nat := c.toNat - '0'.toNat

/-- Accumulating decimal interpretation of a digit list. -/
def digitsToNatAux (acc : Nat) : Token → Nat
  | [] => acc
  | c :: r => digitsToNatAux (acc * 10 + digitVal c) r

/-- Decimal value of a digit list. -/
def digitsToNat (s : Token) : Nat := digitsToNatAux 0 s

/-- All characters are ASCII digits. -/
def allDigits (s : Token) : Bool := s.all Char.isDigit

/-- Model of Rust `str::parse::<u32>()`: optional leading `'+'`, one or
more ASCII digits, failing on overflow past `u32::MAX`. -/
def parseU32 (s : Token) : Option Nat :=
  let t := if s.head? = some '+' then s.drop 1 else s
  if ¬ t.isEmpty ∧ allDigits t then
    if digitsToNat t < 4294967296 then some (digitsToNat t) else none
  else none

/-- Model of Rust `str::parse::<i32>()`: optional sign, one or more ASCII
digits, failing outside the `i32` range. -/
def parseI32 (s : Token) : Option Int :=
  let neg : Bool := s.head? = some '-'
  let t := if s.head? = some '+' ∨ s.head? = some '-' then s.drop 1 else s
  if ¬ t.isEmpty ∧ allDigits t then
    let v : Int := if neg then -(digitsToNat t : Int) else (digitsToNat t : Int)
    if -2147483648 ≤ v ∧ v ≤ 2147483647 then some v else none
  else none

/-- Model of the plain decimal fragment of Rust `str::parse::<f32>()`:
optional sign, digits, optional `'.'` and fraction digits, at least one
digit overall.  The value is kept exact in `ℚ`. -/
def parseF32 (s : Token) : Option ℚ :=
  let neg : Bool := s.head? = some '-'
  let t := if s.head? = some '+' ∨ s.head? = some '-' then s.drop 1 else s
  let ip := t.takeWhile (fun c => c ≠ '.')
  match t.drop ip.length with
  | [] =>
    if ¬ ip.isEmpty ∧ allDigits ip then
      let q : ℚ := (digitsToNat ip : ℚ)
      some (if neg then -q else q)
    else none
  | _ :: fp =>
    if (¬ ip.isEmpty ∨ ¬ fp.isEmpty) ∧ allDigits ip ∧ allDigits fp then
      let q : ℚ := (digitsToNat ip : ℚ) + (digitsToNat fp : ℚ) / ((10 : ℚ) ^ fp.length)
      some (if neg then -q else q)
    else none

/-- Model of the Rust `as u32` cast from `f32`: saturating at the `u32`
range boundaries and truncating toward zero. -/
def f32_as_u32 (q : ℚ) : Nat :=
  if q ≤ 0 then 0
  else if (4294967295 : ℚ) ≤ q then 4294967295
  else q.floor.toNat

/-- Model of Rust `{:.2}` formatting of an f32 value. -/
def fmtTwoDec (q : ℚ) : String :=
  let r : Int := round (q * 100)
  (if r < 0 then "-" else "") ++ toString (r.natAbs / 100) ++ "." ++ pad2 (r.natAbs % 100)

/-- Abstract model of Rust `{}` (Display) formatting of an f32 value; the
claims below depend only on the surrounding text, never on these digits. -/
def fmtF32 (q : ℚ) : String := toString q

/-- Model of Rust `{:.1}` formatting of the value `t / 10.0` for an
integer `t` of tenths. -/
def fmtTenths (t : Int) : String :=
  (if t < 0 then "-" else "") ++ toString (t.natAbs / 10) ++ "." ++ toString (t.natAbs % 10)

/-- Translation of `utils.rs::degrees_to_cardinal` (match on `u32` ranges,
in source order; any other value maps to the empty label). -/
def degrees_to_cardinal (degrees : Nat) : String :=
  if degrees ≤ 22 then "N"
  else if 338 ≤ degrees ∧ degrees ≤ 360 then "N"
  else if 23 ≤ degrees ∧ degrees ≤ 67 then "NE"
  else if 68 ≤ degrees ∧ degrees ≤ 112 then "E"
  else if 113 ≤ degrees ∧ degrees ≤ 157 then "SE"
  else if 158 ≤ degrees ∧ degrees ≤ 202 then "S"
  else if 203 ≤ degrees ∧ degrees ≤ 247 then "SW"
  else if 248 ≤ degrees ∧ degrees ≤ 292 then "W"
  else if 293 ≤ degrees ∧ degrees ≤ 337 then "NW"
  else ""

/-- Substring test, model of Rust `str::contains(&str)`. -/
def hasSubstr (pat : Token) : Token → Bool
  | [] => pat.isPrefixOf []
  | c :: rest => pat.isPrefixOf (c :: rest) || hasSubstr pat rest

/-- The two-letter phenomenon code table of `utils.rs::is_weather_code`. -/
def weather_codes : List Token :=
  [tok "RA", tok "SN", tok "DZ", tok "PL", tok "GR", tok "GS", tok "UP", tok "IC", tok "SG",
   tok "BR", tok "FG", tok "FU", tok "VA", tok "DU", tok "SA", tok "HZ", tok "PY",
   tok "SQ", tok "FC", tok "SS", tok "DS", tok "PO",
   tok "MI", tok "BC", tok "DR", tok "BL", tok "SH", tok "TS", tok "FZ", tok "PR"]

/-- Translation of `utils.rs::is_weather_code`. -/
def is_weather_code (code : Token) : Bool :=
  if (tok "SKC").isPrefixOf code ∨ (tok "CLR").isPrefixOf code ∨ (tok "FEW").isPrefixOf code
      ∨ (tok "SCT").isPrefixOf code ∨ (tok "BKN").isPrefixOf code ∨ (tok "OVC").isPrefixOf code
      ∨ (tok "VV").isPrefixOf code ∨ (tok "NSC").isPrefixOf code ∨ (tok "NCD").isPrefixOf code
      ∨ (tok "A").isPrefixOf code ∨ (tok "Q").isPrefixOf code ∨ code.contains '/' then
    false
  else
    weather_codes.any (fun wx => hasSubstr wx code)

/-- Intensity prefix step of `utils.rs::decode_weather`. -/
def weatherIntensity : Token → String × Token
  | '-' :: cs => ("Light ", cs)
  | '+' :: cs => ("Heavy ", cs)
  | 'V' :: 'C' :: cs => ("In vicinity ", cs)
  | cs => ("", cs)

/-- Descriptor loop of `utils.rs::decode_weather`; every pattern starts
with an ASCII letter, so the `is_alphabetic` loop guard of the source is
implied by the pattern match. -/
def descLoop : Token → String × Token
  | 'M' :: 'I' :: r => let p := descLoop r; ("Shallow " ++ p.1, p.2)
  | 'B' :: 'C' :: r => let p := descLoop r; ("Patches " ++ p.1, p.2)
  | 'D' :: 'R' :: r => let p := descLoop r; ("Low drifting " ++ p.1, p.2)
  | 'B' :: 'L' :: r => let p := descLoop r; ("Blowing " ++ p.1, p.2)
  | 'S' :: 'H' :: r => let p := descLoop r; ("Showers " ++ p.1, p.2)
  | 'T' :: 'S' :: r => let p := descLoop r; ("Thunderstorm " ++ p.1, p.2)
  | 'F' :: 'Z' :: r => let p := descLoop r; ("Freezing " ++ p.1, p.2)
  | 'P' :: 'R' :: r => let p := descLoop r; ("Partial " ++ p.1, p.2)
  | cs => ("", cs)

/-- Phenomenon loop of `utils.rs::decode_weather`; as in the source,
consecutive phenomena are concatenated without separators. -/
def phenLoop : Token → String × Token
  | 'D' :: 'Z' :: r => let p := phenLoop r; ("drizzle" ++ p.1, p.2)
  | 'R' :: 'A' :: r => let p := phenLoop r; ("rain" ++ p.1, p.2)
  | 'S' :: 'N' :: r => let p := phenLoop r; ("snow" ++ p.1, p.2)
  | 'S' :: 'G' :: r => let p := phenLoop r; ("snow grains" ++ p.1, p.2)
  | 'I' :: 'C' :: r => let p := phenLoop r; ("ice crystals" ++ p.1, p.2)
  | 'G' :: 'R' :: r => let p := phenLoop r; ("hail" ++ p.1, p.2)
  | 'P' :: 'L' :: r => let p := phenLoop r; ("ice pellets" ++ p.1, p.2)
  | 'H' :: 'Z' :: r => let p := phenLoop r; ("haze" ++ p.1, p.2)
  | 'F' :: 'U' :: r => let p := phenLoop r; ("smoke" ++ p.1, p.2)
  | 'F' :: 'G' :: r => let p := phenLoop r; ("fog" ++ p.1, p.2)
  | 'B' :: 'R' :: r => let p := phenLoop r; ("mist" ++ p.1, p.2)
  | 'S' :: 'Q' :: r => let p := phenLoop r; ("squalls" ++ p.1, p.2)
  | 'F' :: 'C' :: r => let p := phenLoop r; ("funnel cloud" ++ p.1, p.2)
  | 'G' :: 'S' :: r => let p := phenLoop r; ("small hail/snow pellets" ++ p.1, p.2)
  | 'U' :: 'P' :: r => let p := phenLoop r; ("unknown precipitation" ++ p.1, p.2)
  | 'V' :: 'A' :: r => let p := phenLoop r; ("volcanic ash" ++ p.1, p.2)
  | 'D' :: 'U' :: r => let p := phenLoop r; ("widespread dust" ++ p.1, p.2)
  | 'S' :: 'A' :: r => let p := phenLoop r; ("sand" ++ p.1, p.2)
  | 'P' :: 'O' :: r => let p := phenLoop r; ("dust/sand whirls" ++ p.1, p.2)
  | 'S' :: 'S' :: r => let p := phenLoop r; ("sandstorm" ++ p.1, p.2)
  | 'D' :: 'S' :: r => let p := phenLoop r; ("dust storm" ++ p.1, p.2)
  | 'P' :: 'Y' :: r => let p := phenLoop r; ("spray" ++ p.1, p.2)
  | cs => ("", cs)

/-- Translation of `utils.rs::decode_weather`. -/
def decode_weather (code : Token) : String :=
  let i := weatherIntensity code
  let d := descLoop i.2
  let p := phenLoop d.2
  (i.1 ++ d.1 ++ p.1).trim

/-- Translation of `utils.rs::celsius_to_fahrenheit`; Rust `i32` division
truncates toward zero, hence `Int.tdiv`. -/
def celsius_to_fahrenheit (celsius : Int) : Int :=
  Int.tdiv (celsius * 9) 5 + 32

/-- Translation of `models.rs::MetarInfo`. -/
structure MetarInfo where
  station : String
  date_time : String
  zulu_day : Option Nat
  zulu_hour : Option Nat
  zulu_minute : Option Nat
  wind : String
  visibility : String
  weather : String
  clouds : String
  temperature : String
  dewpoint : String
  altimeter : String
  altimeter_hpa : Option Nat
  altimeter_inches : Option ℚ
  altimeter_default_unit : String
  remarks : String
  raw : String
deriving DecidableEq

/-- Translation of the derived `Default` instance of `MetarInfo`. -/
def MetarInfo.default : MetarInfo :=
  { station := "", date_time := "", zulu_day := none, zulu_hour := none, zulu_minute := none,
    wind := "", visibility := "", weather := "", clouds := "", temperature := "",
    dewpoint := "", altimeter := "", altimeter_hpa := none, altimeter_inches := none,
    altimeter_default_unit := "", remarks := "", raw := "" }

/-- Accumulator for `split_whitespace` (current word is kept reversed). -/
def splitWsAux (cur : Token) : List Char → List Token
  | [] => if cur = [] then [] else [cur.reverse]
  | c :: cs =>
    if c.isWhitespace then
      if cur = [] then splitWsAux [] cs else cur.reverse :: splitWsAux [] cs
    else splitWsAux (c :: cur) cs

/-- Model of Rust `str::split_whitespace().collect()`. -/
def splitWs (s : List Char) : List Token := splitWsAux [] s

/-- Model of Rust `str::split(sep).collect()`. -/
def splitChar (sep : Char) : Token → List Token
  | [] => [[]]
  | c :: cs =>
    if c = sep then [] :: splitChar sep cs
    else
      match splitChar sep cs with
      | h :: t => (c :: h) :: t
      | [] => [[c]]

/-- Observation-time stage of `services.rs::parse_metar` (lines 56-70): a
7-character token ending in `'Z'` is always consumed; on digit-parse
success all three zulu fields and the formatted date string are set. -/
def timeStage (info : MetarInfo) (parts : List Token) : MetarInfo × List Token :=
  match parts with
  | [] => (info, [])
  | dt :: rest =>
    if dt.length = 7 ∧ dt.getLast? = some 'Z' then
      match parseU32 (dt.take 2), parseU32 ((dt.drop 2).take 2), parseU32 ((dt.drop 4).take 2) with
      | some day, some hour, some minute =>
        ({ info with
            zulu_day := some day, zulu_hour := some hour, zulu_minute := some minute,
            date_time := "Day " ++ toString day ++ ", " ++ toString hour ++ ":" ++ pad2 minute ++ "Z" },
         rest)
      | _, _, _ => (info, rest)
    else (info, parts)

/-- Modifier-skipping stage of `services.rs::parse_metar` (lines 73-75). -/
def modifiersStage : List Token → List Token
  | [] => []
  | p :: rest =>
    if p = tok "COR" ∨ p = tok "AUTO" ∨ p = tok "NIL" then modifiersStage rest
    else p :: rest

/-- Variable-wind-direction peek of `services.rs::parse_metar`
(lines 115-129): runs right after a directional wind token is consumed. -/
def varWindPeek (windStr : String) (parts : List Token) : String × List Token :=
  match parts with
  | [] => (windStr, [])
  | var_wind :: rest =>
    if var_wind.contains 'V' ∧ 5 ≤ var_wind.length then
      match List.findIdx? (fun c => c = 'V') var_wind with
      | some v_pos =>
        match parseU32 (var_wind.take v_pos), parseU32 (var_wind.drop (v_pos + 1)) with
        | some from_dir, some to_dir =>
          (windStr ++ ", variable between " ++ toString from_dir ++ " and "
             ++ toString to_dir ++ " degrees", rest)
        | _, _ => (windStr, var_wind :: rest)
      | none => (windStr, var_wind :: rest)
    else (windStr, var_wind :: rest)

/-- Formatted string for a directional wind token (lines 100-112): the
base direction/cardinal/speed text, extended with the gust clause when a
`'G'` is present and its two digits parse.  When the token contains a
`'G'` that `find` does not locate (impossible), the source leaves the
wind field untouched, hence the `info.wind` arm. -/
def dirWindStr (info : MetarInfo) (wind : Token) (dir speed : Nat) : String :=
  if wind.contains 'G' then
    match List.findIdx? (fun c => c = 'G') wind with
    | some gust_pos =>
      match parseU32 ((wind.drop (gust_pos + 1)).take 2) with
      | some gust =>
        toString dir ++ " degrees (" ++ degrees_to_cardinal dir ++ ") at "
          ++ toString speed ++ " knots, gusting to " ++ toString gust ++ " knots"
      | none =>
        toString dir ++ " degrees (" ++ degrees_to_cardinal dir ++ ") at "
          ++ toString speed ++ " knots"
    | none => info.wind
  else
    toString dir ++ " degrees (" ++ degrees_to_cardinal dir ++ ") at "
      ++ toString speed ++ " knots"

/-- Wind stage of `services.rs::parse_metar` (lines 78-133).  The Rust
code slices `wind[3..5]` and `wind[gust_pos+1..gust_pos+3]` in the `VRB`
branch without length checks; when those byte ranges fall outside the
token the program panics, modelled here by `none`. -/
def windStage (info : MetarInfo) (parts : List Token) : Option (MetarInfo × List Token) :=
  match parts with
  | [] => some (info, [])
  | wind :: rest =>
    if (tok "VRB").isPrefixOf wind then
      if wind.length < 5 then none
      else
        match parseU32 ((wind.drop 3).take 2) with
        | some speed =>
          if wind.contains 'G' then
            match List.findIdx? (fun c => c = 'G') wind with
            | some gust_pos =>
              if wind.length < gust_pos + 3 then none
              else
                match parseU32 ((wind.drop (gust_pos + 1)).take 2) with
                | some gust =>
                  some ({ info with wind := "Variable at " ++ toString speed
                            ++ " knots, gusting to " ++ toString gust ++ " knots" }, rest)
                | none =>
                  some ({ info with wind := "Variable at " ++ toString speed ++ " knots" }, rest)
            | none =>
              some ({ info with wind := "Variable at " ++ toString speed ++ " knots" }, rest)
          else some ({ info with wind := "Variable at " ++ toString speed ++ " knots" }, rest)
        | none => some (info, wind :: rest)
    else if 7 ≤ wind.length ∧ (tok "KT").isSuffixOf wind then
      match parseU32 (wind.take 3) with
      | some dir =>
        match parseU32 ((wind.drop 3).take 2) with
        | some speed =>
          some ({ info with wind := (varWindPeek (dirWindStr info wind dir speed) rest).1 },
            (varWindPeek (dirWindStr info wind dir speed) rest).2)
        | none => some (info, wind :: rest)
      | none => some (info, wind :: rest)
    else some (info, wind :: rest)

/-- CAVOK / visibility stage of `services.rs::parse_metar` (lines
136-167); the third component reports whether CAVOK was found. -/
def cavokVisStage (info : MetarInfo) (parts : List Token) : MetarInfo × List Token × Bool :=
  match parts with
  | [] => (info, [], false)
  | vis :: rest =>
    if vis = tok "CAVOK" then
      ({ info with
          visibility := "10 kilometers or more",
          clouds := "No clouds below 5,000 feet",
          weather := "None significant" }, rest, true)
    else if vis = tok "9999" ∨ (tok "SM").isSuffixOf vis then
      if vis = tok "9999" then
        ({ info with visibility := "10 kilometers or more" }, rest, false)
      else
        match parseF32 (vis.take (vis.length - 2)) with
        | some miles => ({ info with visibility := fmtF32 miles ++ " statute miles" }, rest, false)
        | none => (info, rest, false)
    else
      match parseU32 vis with
      | some meters =>
        ({ info with visibility :=
            if 1000 ≤ meters then toString (meters / 1000) ++ " kilometers"
            else toString meters ++ " meters" }, rest, false)
      | none => (info, vis :: rest, false)

/-- Appending of one decoded weather description to the running weather
field (lines 186-193): a non-empty description is appended, separated by
a comma when the field already has text. -/
def weatherAppend (info : MetarInfo) (weather_desc : String) : MetarInfo :=
  if weather_desc ≠ "" then
    if info.weather ≠ "" then { info with weather := info.weather ++ ", " ++ weather_desc }
    else { info with weather := info.weather ++ weather_desc }
  else info

/-- Present-weather loop of `services.rs::parse_metar` (lines 171-198). -/
def weatherLoop (info : MetarInfo) : List Token → MetarInfo × List Token
  | [] => (info, [])
  | part :: rest =>
    if (tok "SKC").isPrefixOf part ∨ (tok "CLR").isPrefixOf part ∨ (tok "FEW").isPrefixOf part
        ∨ (tok "SCT").isPrefixOf part ∨ (tok "BKN").isPrefixOf part ∨ (tok "OVC").isPrefixOf part
        ∨ (tok "VV").isPrefixOf part then
      (info, part :: rest)
    else if part.head? = some '-' ∨ part.head? = some '+'
        ∨ (tok "VC").isPrefixOf part ∨ is_weather_code part then
      weatherLoop (weatherAppend info (decode_weather part)) rest
    else (info, part :: rest)

/-- Present-weather stage including the trailing `"None"` default
(lines 170-203). -/
def weatherStage (info : MetarInfo) (parts : List Token) : MetarInfo × List Token :=
  (if (weatherLoop info parts).1.weather = "" then
    { (weatherLoop info parts).1 with weather := "None" }
   else (weatherLoop info parts).1, (weatherLoop info parts).2)

/-- Coverage label of a three-character cloud prefix (lines 244-250). -/
def covOf (s : Token) : String :=
  if s = tok "FEW" then "Few"
  else if s = tok "SCT" then "Scattered"
  else if s = tok "BKN" then "Broken"
  else if s = tok "OVC" then "Overcast"
  else ""

/-- Vertical-visibility layer of the cloud loop (lines 230-240). -/
def vvAppend (layers : List String) (part : Token) : List String :=
  if 5 ≤ part.length then
    match parseU32 ((part.drop 2).take 3) with
    | some alt =>
      layers ++ ["Sky obscured, vertical visibility " ++ toString (alt * 100) ++ " feet"]
    | none => layers
  else layers ++ ["Sky obscured"]

/-- Optional cloud-type suffix of a coverage layer (lines 256-262). -/
def cloudSuffix (part : Token) : String :=
  if (tok "CB").isSuffixOf part then " (cumulonimbus)"
  else if (tok "TCU").isSuffixOf part then " (towering cumulus)"
  else ""

/-- Coverage cloud layer of the cloud loop (lines 244-265): a layer is
added only when the coverage label is known, the token has at least six
characters, and the three height characters parse. -/
def cloudLayerAppend (layers : List String) (part : Token) : List String :=
  if covOf (part.take 3) ≠ "" ∧ 6 ≤ part.length then
    match parseU32 ((part.drop 3).take 3) with
    | some alt =>
      layers ++ [covOf (part.take 3) ++ " at " ++ toString (alt * 100) ++ " feet"
        ++ cloudSuffix part]
    | none => layers
  else layers

/-- Cloud-layer loop of `services.rs::parse_metar` (lines 208-275),
accumulating the formatted layers. -/
def cloudLoop (layers : List String) : List Token → List String × List Token
  | [] => (layers, [])
  | part :: rest =>
    if (tok "SKC").isPrefixOf part then (layers ++ ["Sky clear"], rest)
    else if (tok "CLR").isPrefixOf part then (layers ++ ["Clear below 12,000 feet"], rest)
    else if (tok "NSC").isPrefixOf part then (layers ++ ["No significant cloud"], rest)
    else if (tok "NCD").isPrefixOf part then (layers ++ ["No cloud detected"], rest)
    else if (tok "VV").isPrefixOf part then cloudLoop (vvAppend layers part) rest
    else if (tok "FEW").isPrefixOf part ∨ (tok "SCT").isPrefixOf part
        ∨ (tok "BKN").isPrefixOf part ∨ (tok "OVC").isPrefixOf part then
      cloudLoop (cloudLayerAppend layers part) rest
    else if (tok "A").isPrefixOf part ∨ (tok "Q").isPrefixOf part ∨ (tok "T").isPrefixOf part
        ∨ (tok "M").isPrefixOf part ∨ (tok "RMK").isPrefixOf part
        ∨ (tok "NOSIG").isPrefixOf part then
      (layers, part :: rest)
    else if part.contains '/' ∧ part.length ≤ 7 then (layers, part :: rest)
    else cloudLoop layers rest

/-- Cloud stage including the empty-layer default (lines 206-282). -/
def cloudStage (info : MetarInfo) (parts : List Token) : MetarInfo × List Token :=
  ({ info with
      clouds :=
        if (cloudLoop [] parts).1 = [] then "No cloud information"
        else String.intercalate ", " (cloudLoop [] parts).1 },
   (cloudLoop [] parts).2)

/-- Temperature/dewpoint formatted display string (lines 315 and 319). -/
def fmtTempC (c : Int) : String :=
  toString c ++ "°C (" ++ toString (celsius_to_fahrenheit c) ++ "°F)"

/-- Sign/prefix stripping for the temperature side of a `T/D` group
(lines 292-301): a leading `'M'` negates, a leading `'T'` is dropped. -/
def stripTempPrefix (s : Token) : Bool × Token :=
  if s.head? = some 'M' then (true, s.drop 1)
  else if s.head? = some 'T' then (false, s.drop 1)
  else (false, s)

/-- Sign stripping for the dewpoint side (lines 303-309). -/
def stripDewPrefix (s : Token) : Bool × Token :=
  if s.head? = some 'M' then (true, s.drop 1) else (false, s)

/-- The Celsius pair parsed from a slash-separated temperature group
(lines 289-324), or `none` when any part of it fails to parse. -/
def tempDewOf (part : Token) : Option (Int × Int) :=
  if part.contains '/' ∧ part.length ≤ 7 then
    match splitChar '/' part with
    | [tp0, tp1] =>
      match parseI32 (stripTempPrefix tp0).2, parseI32 (stripDewPrefix tp1).2 with
      | some t, some d =>
        some (if (stripTempPrefix tp0).1 then -t else t,
          if (stripDewPrefix tp1).1 then -d else d)
      | _, _ => none
    | _ => none
  else none

/-- Temperature/dewpoint branch of the tail loop (lines 289-325);
`none` means the token did not fully parse and falls through to the
altimeter classification of the same token. -/
def tempBranch (info : MetarInfo) (part : Token) : Option MetarInfo :=
  match tempDewOf part with
  | some (temp_c, dew_c) =>
    some { info with temperature := fmtTempC temp_c, dewpoint := fmtTempC dew_c }
  | none => none

/-- A-group altimeter branch of the tail loop (lines 328-337). -/
def aBranch (info : MetarInfo) (part : Token) : MetarInfo :=
  match parseF32 (part.drop 1) with
  | some inches_raw =>
    let inches := inches_raw / 100
    let hpa := f32_as_u32 (inches * (338639 / 10000 : ℚ))
    { info with
        altimeter := fmtTwoDec inches ++ " inches of mercury",
        altimeter_inches := some inches, altimeter_hpa := some hpa,
        altimeter_default_unit := "inches" }
  | none => info

/-- Q-group altimeter branch of the tail loop (lines 339-347). -/
def qBranch (info : MetarInfo) (part : Token) : MetarInfo :=
  match parseU32 (part.drop 1) with
  | some hpa =>
    { info with
        altimeter := toString hpa ++ " hectopascals",
        altimeter_hpa := some hpa,
        altimeter_inches := some ((hpa : ℚ) / (338639 / 10000 : ℚ)),
        altimeter_default_unit := "hpa" }
  | none => info

/-- Remarks sub-loop of `services.rs::parse_metar` (lines 352-387): runs
until a token exactly `"$"` (left unconsumed) or the end of the tokens.
The `remark = "$"` arm inside the body is kept from the source even
though the loop guard makes it unreachable. -/
def remarksLoop (acc : List String) : List Token → List String × List Token
  | [] => (acc, [])
  | remark :: rest =>
    if remark = tok "$" then (acc, remark :: rest)
    else
      let acc2 :=
        if (tok "AO").isPrefixOf remark then acc ++ ["Automated station"]
        else if (tok "RAE").isPrefixOf remark then
          match parseU32 (remark.drop 3) with
          | some m => acc ++ ["Rain ended at " ++ toString m ++ " minutes past the hour"]
          | none => acc
        else if (tok "P").isPrefixOf remark ∧ 1 < remark.length then
          match parseF32 (remark.drop 1) with
          | some precip =>
            if precip = 0 then acc ++ ["No precipitation in past hour"]
            else acc ++ ["Precipitation: " ++ fmtF32 (precip / 100) ++ " inches"]
          | none => acc
        else if (tok "T").isPrefixOf remark ∧ 1 < remark.length ∧ remark.contains '/' then
          match splitChar '/' (remark.drop 1) with
          | [a, b] =>
            match parseI32 a, parseI32 b with
            | some t, some d =>
              acc ++ ["Precise temperature: " ++ fmtTenths t ++ "°C / " ++ fmtTenths d ++ "°C"]
            | _, _ => acc
          | _ => acc
        else if remark = tok "$" then acc ++ ["Maintenance needed on automated station"]
        else acc
      remarksLoop acc2 rest

/-- Remarks branch of the tail loop (lines 349-391): runs the sub-loop,
joins the fragments with `". "`, and terminates the whole tail loop. -/
def rmkBranch (info : MetarInfo) (rest : List Token) : MetarInfo :=
  if (remarksLoop [] rest).1 ≠ [] then
    { info with remarks := String.intercalate ". " (remarksLoop [] rest).1 }
  else info

/-- Tail loop of `services.rs::parse_metar` (lines 285-398):
temperature/dewpoint, altimeter and remarks classification of every
remaining token. -/
def tailLoop (info : MetarInfo) : List Token → MetarInfo
  | [] => info
  | part :: rest =>
    match tempBranch info part with
    | some info2 => tailLoop info2 rest
    | none =>
      if (tok "A").isPrefixOf part ∧ part.length = 5 then tailLoop (aBranch info part) rest
      else if (tok "Q").isPrefixOf part ∧ part.length = 5 then tailLoop (qBranch info part) rest
      else if (tok "RMK").isPrefixOf part then rmkBranch info rest
      else if (tok "NOSIG").isPrefixOf part ∨ part = tok "$" then tailLoop info rest
      else tailLoop info rest

/-- The stages after CAVOK detection (lines 170-398): present weather and
cloud layers run only when CAVOK was not found, then the tail loop. -/
def postStages : MetarInfo × List Token × Bool → MetarInfo
  | (info, parts, true) => tailLoop info parts
  | (info, parts, false) =>
    match weatherStage info parts with
    | (info5, parts7) =>
      match cloudStage info5 parts7 with
      | (info6, parts8) => tailLoop info6 parts8

/-- The decoder pipeline from the wind stage on: wind, CAVOK/visibility,
weather and clouds (both skipped when CAVOK was found), then the tail
loop.  `none` models a panic inside the wind stage. -/
def decodeFromWind (info : MetarInfo) (parts : List Token) : Option MetarInfo :=
  match windStage info parts with
  | none => none
  | some (info3, parts5) => some (postStages (cavokVisStage info3 parts5))

/-- The pipeline from the observation-time stage on (lines 56-398). -/
def decodeFromTime (info : MetarInfo) (parts : List Token) : Option MetarInfo :=
  match timeStage info parts with
  | (info2, parts3) => decodeFromWind info2 (modifiersStage parts3)

/-- Station stage (lines 50-53): the first remaining token, if any,
overwrites the caller-supplied station code. -/
def decodeAfterStation (info : MetarInfo) (parts1 : List Token) : Option MetarInfo :=
  match parts1 with
  | [] => decodeFromTime info []
  | p :: rest => decodeFromTime { info with station := tokStr p } rest

/-- Translation of `services.rs::parse_metar`.  `none` models a panic
(out-of-range byte slice) in the Rust code; `some r` is the returned
`MetarInfo`. -/
def parse_metar (metar : String) (icao : String) : Option MetarInfo :=
  match splitWs metar.toList with
  | [] => some { MetarInfo.default with station := icao, raw := metar }
  | p0 :: rest0 =>
    decodeAfterStation { MetarInfo.default with station := icao, raw := metar }
      (if p0 = tok "METAR" ∨ p0 = tok "SPECI" then rest0 else p0 :: rest0)

/-- Pairing invariant of the report record: the numeric zulu-time fields
are populated exactly when the formatted date string is non-empty, and
the numeric altimeter fields exactly when the formatted altimeter string
is non-empty. -/
def GoodInfo (r : MetarInfo) : Prop :=
  (r.zulu_day.isSome = true ↔ r.date_time ≠ "") ∧
  (r.zulu_hour.isSome = true ↔ r.date_time ≠ "") ∧
  (r.zulu_minute.isSome = true ↔ r.date_time ≠ "") ∧
  (r.altimeter_hpa.isSome = true ↔ r.altimeter ≠ "") ∧
  (r.altimeter_inches.isSome = true ↔ r.altimeter ≠ "")

/-- Declarative acceptance condition of the variable-wind peek, written
from the observed behaviour: the peeked token is consumed and appended
exactly when it contains a `'V'`, has length at least five, and the
substrings before and after the first `'V'` both parse as `u32`. -/
def varWindAccept (vw : Token) : Bool :=
  vw.contains 'V' && decide (5 ≤ vw.length) &&
    (match List.findIdx? (fun c => c = 'V') vw with
     | some v_pos => (parseU32 (vw.take v_pos)).isSome && (parseU32 (vw.drop (v_pos + 1))).isSome
     | none => false)

/-- The clause appended by the variable-wind peek for an accepted token. -/
def varClause (vw : Token) : String :=
  match List.findIdx? (fun c => c = 'V') vw with
  | some v_pos =>
    match parseU32 (vw.take v_pos), parseU32 (vw.drop (v_pos + 1)) with
    | some from_dir, some to_dir =>
      ", variable between " ++ toString from_dir ++ " and " ++ toString to_dir ++ " degrees"
    | _, _ => ""
  | none => ""

/-! Helper lemmas about strings, digits and the parsing primitives. -/

theorem string_append_ne_empty_right (a b : String) (hb : b ≠ "") : a ++ b ≠ "" := by
  intro h
  apply hb
  apply String.ext
  have hd := String.data_append a b
  rw [h] at hd
  rcases List.append_eq_nil.mp hd.symm with ⟨-, h2⟩
  simpa using h2

theorem string_append_ne_empty_left (a b : String) (ha : a ≠ "") : a ++ b ≠ "" := by
  intro h
  apply ha
  apply String.ext
  have hd := String.data_append a b
  rw [h] at hd
  rcases List.append_eq_nil.mp hd.symm with ⟨h1, -⟩
  simpa using h1

theorem digitVal_le_nine (c : Char) (h : c.isDigit = true) : digitVal c ≤ 9 := by
  have h2 : c.toNat ≤ 57 := by
    simp only [Char.isDigit, Bool.and_eq_true, decide_eq_true_eq] at h
    exact h.2
  simp only [digitVal, show '0'.toNat = 48 from rfl]
  omega

theorem isDigit_ne (c x : Char) (h : c.isDigit = true) (hx : x.isDigit = false) : c ≠ x := by
  intro hcx
  rw [hcx] at h
  rw [h] at hx
  cases hx

theorem not_isEmpty_of_ne (s : Token) (hne : s ≠ []) : ¬ (s.isEmpty = true) := by
  cases s with
  | nil => exact absurd rfl hne
  | cons a t => intro hh; simp at hh

theorem digitsToNatAux_lt (s : Token) : ∀ acc : Nat, allDigits s = true →
    digitsToNatAux acc s < (acc + 1) * 10 ^ s.length := by
  induction s with
  | nil =>
    intro acc _
    show digitsToNatAux acc [] < (acc + 1) * 10 ^ (0 : Nat)
    have he : digitsToNatAux acc [] = acc := rfl
    rw [he, pow_zero, mul_one]
    exact Nat.lt_succ_self acc
  | cons c r ih =>
    intro acc h
    simp only [allDigits, List.all_cons, Bool.and_eq_true] at h
    have hd : digitVal c ≤ 9 := digitVal_le_nine c h.1
    have hr := ih (acc * 10 + digitVal c) h.2
    show digitsToNatAux (acc * 10 + digitVal c) r < (acc + 1) * 10 ^ (c :: r).length
    have hlen : (c :: r).length = r.length + 1 := rfl
    calc digitsToNatAux (acc * 10 + digitVal c) r
        < (acc * 10 + digitVal c + 1) * 10 ^ r.length := hr
      _ ≤ ((acc + 1) * 10) * 10 ^ r.length := Nat.mul_le_mul (by omega) (le_refl _)
      _ = (acc + 1) * 10 ^ (r.length + 1) := by ring
      _ = (acc + 1) * 10 ^ (c :: r).length := by rw [hlen]

theorem digitsToNat_lt (s : Token) (h : allDigits s = true) :
    digitsToNat s < 10 ^ s.length := by
  simpa [digitsToNat] using digitsToNatAux_lt s 0 h

theorem head_ne_of_digits (s : Token) (x : Char) (hne : s ≠ []) (h : allDigits s = true)
    (hx : x.isDigit = false) : s.head? ≠ some x := by
  cases s with
  | nil => exact absurd rfl hne
  | cons c r =>
    simp only [allDigits, List.all_cons, Bool.and_eq_true] at h
    simp only [List.head?_cons, ne_eq, Option.some.injEq]
    exact isDigit_ne c x h.1 hx

theorem digits_takeWhile_not_dot (s : Token) (h : allDigits s = true) :
    s.takeWhile (fun c => c ≠ '.') = s := by
  rw [List.takeWhile_eq_self_iff]
  intro x hx
  have hxd := List.all_eq_true.mp h x hx
  simp only [ne_eq, decide_eq_true_eq]
  exact isDigit_ne x '.' hxd (by decide)

theorem digits_not_contains (s : Token) (x : Char) (h : allDigits s = true)
    (hx : x.isDigit = false) : s.contains x = false := by
  rw [Bool.eq_false_iff]
  intro hc
  have hm : x ∈ s := by simpa using hc
  have := List.all_eq_true.mp h x hm
  rw [this] at hx
  cases hx

theorem parseU32_digits (s : Token) (hne : s ≠ []) (h : allDigits s = true)
    (hlen : s.length ≤ 9) : parseU32 s = some (digitsToNat s) := by
  have hplus : s.head? ≠ some '+' := head_ne_of_digits s '+' hne h (by decide)
  have hlt : digitsToNat s < 4294967296 := by
    have h1 := digitsToNat_lt s h
    have h2 : (10 : Nat) ^ s.length ≤ 10 ^ 9 := Nat.pow_le_pow_right (by omega) hlen
    have h3 : (10 : Nat) ^ 9 = 1000000000 := by norm_num
    omega
  dsimp only [parseU32]
  rw [if_neg hplus, if_pos ⟨not_isEmpty_of_ne s hne, h⟩, if_pos hlt]

theorem parseF32_digits (s : Token) (hne : s ≠ []) (h : allDigits s = true) :
    parseF32 s = some ((digitsToNat s : ℚ)) := by
  have hplus : s.head? ≠ some '+' := head_ne_of_digits s '+' hne h (by decide)
  have hminus : s.head? ≠ some '-' := head_ne_of_digits s '-' hne h (by decide)
  have hor : ¬ (s.head? = some '+' ∨ s.head? = some '-') := by
    intro hor
    rcases hor with h1 | h1
    · exact hplus h1
    · exact hminus h1
  have hnegf : (decide (s.head? = some '-')) = false := by
    simpa using hminus
  dsimp only [parseF32]
  rw [if_neg hor]
  rw [digits_takeWhile_not_dot s h, List.drop_length]
  rw [hnegf]
  rw [if_pos ⟨not_isEmpty_of_ne s hne, h⟩]
  simp

/-! Shape lemmas: each stage of the decoder rewrites only its own fields
of the report record. -/

theorem tempBranch_shape (info r : MetarInfo) (part : Token)
    (h : tempBranch info part = some r) :
    ∃ a b, r = { info with temperature := a, dewpoint := b } := by
  unfold tempBranch at h
  rcases hd : tempDewOf part with _ | ⟨tc, dc⟩ <;> rw [hd] at h
  · cases h
  · exact ⟨_, _, (Option.some.inj h).symm⟩

theorem aBranch_shape (info : MetarInfo) (part : Token) :
    ∃ a hp ic u, aBranch info part
      = { info with
          altimeter := a, altimeter_hpa := hp, altimeter_inches := ic,
          altimeter_default_unit := u } := by
  unfold aBranch
  split
  · exact ⟨_, _, _, _, rfl⟩
  · exact ⟨info.altimeter, info.altimeter_hpa, info.altimeter_inches,
      info.altimeter_default_unit, rfl⟩

theorem qBranch_shape (info : MetarInfo) (part : Token) :
    ∃ a hp ic u, qBranch info part
      = { info with
          altimeter := a, altimeter_hpa := hp, altimeter_inches := ic,
          altimeter_default_unit := u } := by
  unfold qBranch
  split
  · exact ⟨_, _, _, _, rfl⟩
  · exact ⟨info.altimeter, info.altimeter_hpa, info.altimeter_inches,
      info.altimeter_default_unit, rfl⟩

theorem rmkBranch_shape (info : MetarInfo) (rest : List Token) :
    ∃ rm, rmkBranch info rest = { info with remarks := rm } := by
  unfold rmkBranch
  split
  · exact ⟨_, rfl⟩
  · exact ⟨info.remarks, rfl⟩

theorem tailLoop_shape (parts : List Token) : ∀ info : MetarInfo,
    ∃ a b c hp ic u rm, tailLoop info parts
      = { info with
          temperature := a, dewpoint := b, altimeter := c, altimeter_hpa := hp,
          altimeter_inches := ic, altimeter_default_unit := u, remarks := rm } := by
  induction parts with
  | nil =>
    intro info
    exact ⟨info.temperature, info.dewpoint, info.altimeter, info.altimeter_hpa,
      info.altimeter_inches, info.altimeter_default_unit, info.remarks, rfl⟩
  | cons part rest ih =>
    intro info
    simp only [tailLoop]
    rcases htb : tempBranch info part with _ | info2
    · simp only [htb]
      split
      · obtain ⟨a1, hp1, ic1, u1, ha⟩ := aBranch_shape info part
        obtain ⟨a, b, c, hp, ic, u, rm, ht⟩ := ih (aBranch info part)
        rw [ht, ha]
        exact ⟨a, b, c, hp, ic, u, rm, rfl⟩
      · split
        · obtain ⟨a1, hp1, ic1, u1, hq⟩ := qBranch_shape info part
          obtain ⟨a, b, c, hp, ic, u, rm, ht⟩ := ih (qBranch info part)
          rw [ht, hq]
          exact ⟨a, b, c, hp, ic, u, rm, rfl⟩
        · split
          · obtain ⟨rm, hr⟩ := rmkBranch_shape info rest
            rw [hr]
            exact ⟨info.temperature, info.dewpoint, info.altimeter, info.altimeter_hpa,
              info.altimeter_inches, info.altimeter_default_unit, rm, rfl⟩
          · split
            · exact ih info
            · exact ih info
    · simp only [htb]
      obtain ⟨x, y, hs⟩ := tempBranch_shape info info2 part htb
      obtain ⟨a, b, c, hp, ic, u, rm, ht⟩ := ih info2
      rw [ht, hs]
      exact ⟨a, b, c, hp, ic, u, rm, rfl⟩

theorem tailLoop_keeps_display (info : MetarInfo) (parts : List Token) :
    (tailLoop info parts).visibility = info.visibility ∧
    (tailLoop info parts).clouds = info.clouds ∧
    (tailLoop info parts).weather = info.weather := by
  obtain ⟨a, b, c, hp, ic, u, rm, h⟩ := tailLoop_shape parts info
  rw [h]
  exact ⟨rfl, rfl, rfl⟩

theorem windStage_shape (info : MetarInfo) (parts : List Token) (p : MetarInfo × List Token)
    (h : windStage info parts = some p) : ∃ w, p.1 = { info with wind := w } := by
  cases parts with
  | nil =>
    simp only [windStage] at h
    obtain rfl := Option.some.inj h
    exact ⟨info.wind, rfl⟩
  | cons wind rest =>
    simp only [windStage] at h
    split at h
    · split at h
      · simp at h
      · rcases h1 : parseU32 ((wind.drop 3).take 2) with _ | speed <;>
          rw [h1] at h <;> dsimp only at h
        · obtain rfl := Option.some.inj h
          exact ⟨info.wind, rfl⟩
        · split at h
          · rcases h2 : List.findIdx? (fun c => c = 'G') wind with _ | gust_pos <;>
              rw [h2] at h <;> dsimp only at h
            · obtain rfl := Option.some.inj h
              exact ⟨_, rfl⟩
            · split at h
              · simp at h
              · rcases h3 : parseU32 ((wind.drop (gust_pos + 1)).take 2) with _ | gust <;>
                  rw [h3] at h <;> dsimp only at h
                · obtain rfl := Option.some.inj h
                  exact ⟨_, rfl⟩
                · obtain rfl := Option.some.inj h
                  exact ⟨_, rfl⟩
          · obtain rfl := Option.some.inj h
            exact ⟨_, rfl⟩
    · split at h
      · rcases h1 : parseU32 (wind.take 3) with _ | dir <;>
          rw [h1] at h <;> dsimp only at h
        · obtain rfl := Option.some.inj h
          exact ⟨info.wind, rfl⟩
        · rcases h2 : parseU32 ((wind.drop 3).take 2) with _ | speed <;>
            rw [h2] at h <;> dsimp only at h
          · obtain rfl := Option.some.inj h
            exact ⟨info.wind, rfl⟩
          · obtain rfl := Option.some.inj h
            exact ⟨_, rfl⟩
      · obtain rfl := Option.some.inj h
        exact ⟨info.wind, rfl⟩

theorem cavokVis_shape (info : MetarInfo) (parts : List Token) :
    ∃ v c w, (cavokVisStage info parts).1
      = { info with visibility := v, clouds := c, weather := w } := by
  cases parts with
  | nil => exact ⟨info.visibility, info.clouds, info.weather, rfl⟩
  | cons vis rest =>
    simp only [cavokVisStage]
    split
    · exact ⟨_, _, _, rfl⟩
    · split
      · split
        · exact ⟨_, info.clouds, info.weather, rfl⟩
        · rcases h1 : parseF32 (vis.take (vis.length - 2)) with _ | miles
          · exact ⟨info.visibility, info.clouds, info.weather, rfl⟩
          · exact ⟨_, info.clouds, info.weather, rfl⟩
      · rcases h2 : parseU32 vis with _ | meters
        · exact ⟨info.visibility, info.clouds, info.weather, rfl⟩
        · exact ⟨_, info.clouds, info.weather, rfl⟩

theorem weatherAppend_shape (info : MetarInfo) (d : String) :
    ∃ w, weatherAppend info d = { info with weather := w } := by
  unfold weatherAppend
  repeat split
  all_goals exact ⟨_, rfl⟩

theorem weatherLoop_shape (parts : List Token) : ∀ info : MetarInfo,
    ∃ w, (weatherLoop info parts).1 = { info with weather := w } := by
  induction parts with
  | nil =>
    intro info
    exact ⟨info.weather, rfl⟩
  | cons part rest ih =>
    intro info
    simp only [weatherLoop]
    split
    · exact ⟨info.weather, rfl⟩
    · split
      · obtain ⟨wa, hwa⟩ := weatherAppend_shape info (decode_weather part)
        obtain ⟨w, hw⟩ := ih (weatherAppend info (decode_weather part))
        rw [hw, hwa]
        exact ⟨w, rfl⟩
      · exact ⟨info.weather, rfl⟩

theorem weatherStage_shape (info : MetarInfo) (parts : List Token) :
    ∃ w, (weatherStage info parts).1 = { info with weather := w } := by
  obtain ⟨w, hw⟩ := weatherLoop_shape parts info
  unfold weatherStage
  split
  · exact ⟨"None", by rw [hw]⟩
  · exact ⟨w, hw⟩

theorem cloudStage_shape (info : MetarInfo) (parts : List Token) :
    ∃ c, (cloudStage info parts).1 = { info with clouds := c } :=
  ⟨_, rfl⟩

/-! Preservation of the pairing invariant through every stage. -/

theorem timeStage_good (info : MetarInfo) (parts : List Token) (h : GoodInfo info) :
    GoodInfo (timeStage info parts).1 := by
  cases parts with
  | nil => exact h
  | cons dt rest =>
    simp only [timeStage]
    split
    · rcases h1 : parseU32 (dt.take 2) with _ | day
      all_goals rcases h2 : parseU32 ((dt.drop 2).take 2) with _ | hour
      all_goals rcases h3 : parseU32 ((dt.drop 4).take 2) with _ | minute
      all_goals simp only [h1, h2, h3]
      all_goals try exact h
      refine ⟨?_, ?_, ?_, h.2.2.2.1, h.2.2.2.2⟩
      all_goals exact iff_of_true rfl (string_append_ne_empty_right _ "Z" (by decide))
    · exact h

theorem aBranch_good (info : MetarInfo) (part : Token) (h : GoodInfo info) :
    GoodInfo (aBranch info part) := by
  unfold aBranch
  split
  · refine ⟨h.1, h.2.1, h.2.2.1, ?_, ?_⟩
    · exact iff_of_true rfl (string_append_ne_empty_right _ " inches of mercury" (by decide))
    · exact iff_of_true rfl (string_append_ne_empty_right _ " inches of mercury" (by decide))
  · exact h

theorem qBranch_good (info : MetarInfo) (part : Token) (h : GoodInfo info) :
    GoodInfo (qBranch info part) := by
  unfold qBranch
  split
  · refine ⟨h.1, h.2.1, h.2.2.1, ?_, ?_⟩
    · exact iff_of_true rfl (string_append_ne_empty_right _ " hectopascals" (by decide))
    · exact iff_of_true rfl (string_append_ne_empty_right _ " hectopascals" (by decide))
  · exact h

theorem tailLoop_good (parts : List Token) : ∀ info : MetarInfo, GoodInfo info →
    GoodInfo (tailLoop info parts) := by
  induction parts with
  | nil =>
    intro info h
    exact h
  | cons part rest ih =>
    intro info h
    simp only [tailLoop]
    rcases htb : tempBranch info part with _ | info2
    · simp only [htb]
      split
      · exact ih _ (aBranch_good info part h)
      · split
        · exact ih _ (qBranch_good info part h)
        · split
          · obtain ⟨rm, hr⟩ := rmkBranch_shape info rest
            rw [hr]
            exact h
          · split
            · exact ih _ h
            · exact ih _ h
    · simp only [htb]
      obtain ⟨a, b, hs⟩ := tempBranch_shape info info2 part htb
      rw [hs]
      exact ih _ h

theorem postStages_good (cv : MetarInfo × List Token × Bool) (h : GoodInfo cv.1) :
    GoodInfo (postStages cv) := by
  obtain ⟨info, parts, flag⟩ := cv
  cases flag with
  | true =>
    simp only [postStages]
    exact tailLoop_good _ _ h
  | false =>
    rcases hws : weatherStage info parts with ⟨i5, p7⟩
    rcases hcs : cloudStage i5 p7 with ⟨i6, p8⟩
    simp only [postStages, hws, hcs]
    apply tailLoop_good
    have h5 : GoodInfo i5 := by
      obtain ⟨w, hw⟩ := weatherStage_shape info parts
      have h15 : i5 = (weatherStage info parts).1 := by rw [hws]
      rw [h15, hw]
      exact h
    obtain ⟨c, hc⟩ := cloudStage_shape i5 p7
    have h16 : i6 = (cloudStage i5 p7).1 := by rw [hcs]
    rw [h16, hc]
    exact h5

theorem decodeFromWind_good (info : MetarInfo) (parts : List Token) (r : MetarInfo)
    (hg : GoodInfo info) (h : decodeFromWind info parts = some r) : GoodInfo r := by
  unfold decodeFromWind at h
  rcases hw : windStage info parts with _ | p
  · rw [hw] at h
    cases h
  · rw [hw] at h
    obtain ⟨p1, p2⟩ := p
    dsimp only at h
    obtain rfl := Option.some.inj h
    apply postStages_good
    obtain ⟨v, c, w, hcv⟩ := cavokVis_shape p1 p2
    rw [hcv]
    obtain ⟨wnd, hwp⟩ := windStage_shape info parts (p1, p2) hw
    have h11 : p1 = { info with wind := wnd } := hwp
    rw [h11]
    exact hg

theorem decodeFromTime_good (info : MetarInfo) (parts : List Token) (r : MetarInfo)
    (hg : GoodInfo info) (h : decodeFromTime info parts = some r) : GoodInfo r := by
  unfold decodeFromTime at h
  rcases hts : timeStage info parts with ⟨info2, parts3⟩
  rw [hts] at h
  dsimp only at h
  apply decodeFromWind_good info2 _ r _ h
  have h12 : info2 = (timeStage info parts).1 := by rw [hts]
  rw [h12]
  exact timeStage_good info parts hg

/-! Helper lemmas for the altimeter, temperature and cloud claims. -/

theorem cons_digits_no_slash (c : Char) (ds : List Char) (h1 : ('/' == c) = false)
    (hd : allDigits ds = true) : (c :: ds).contains '/' = false := by
  rw [List.contains_cons, h1, digits_not_contains ds '/' hd (by decide)]
  rfl

theorem tempBranch_no_slash (info : MetarInfo) (part : Token)
    (hns : part.contains '/' = false) : tempBranch info part = none := by
  have hcond : ¬ ((part.contains '/') = true ∧ part.length ≤ 7) := by
    rintro ⟨h1, -⟩
    rw [hns] at h1
    cases h1
  unfold tempBranch tempDewOf
  rw [if_neg hcond]

theorem f32_as_u32_eq_floor (q : ℚ) (h0 : 0 ≤ q) (h1 : q < 4294967295) :
    f32_as_u32 q = q.floor.toNat := by
  unfold f32_as_u32
  split
  · have hq : q = 0 := le_antisymm (by assumption) h0
    subst hq
    rfl
  · split
    · exact absurd (by assumption) (not_le.mpr h1)
    · rfl

theorem aBranch_digits (info : MetarInfo) (ds : List Char)
    (hlen : ds.length = 4) (hd : allDigits ds = true) :
    aBranch info ('A' :: ds)
      = { info with
          altimeter := fmtTwoDec ((digitsToNat ds : ℚ) / 100) ++ " inches of mercury",
          altimeter_inches := some ((digitsToNat ds : ℚ) / 100),
          altimeter_hpa := some (((digitsToNat ds : ℚ) / 100 * (338639 / 10000 : ℚ)).floor.toNat),
          altimeter_default_unit := "inches" } := by
  have hne : ds ≠ [] := by
    intro hh
    rw [hh] at hlen
    cases hlen
  have hp := parseF32_digits ds hne hd
  have hv : digitsToNat ds < 10000 := by
    have hlt := digitsToNat_lt ds hd
    rw [hlen] at hlt
    norm_num at hlt
    exact hlt
  have hv' : ((digitsToNat ds : ℚ)) < 10000 := by exact_mod_cast hv
  unfold aBranch
  rw [show ('A' :: ds).drop 1 = ds from rfl, hp]
  dsimp only
  rw [f32_as_u32_eq_floor ((digitsToNat ds : ℚ) / 100 * (338639 / 10000 : ℚ))
    (by positivity) (by nlinarith)]

theorem qBranch_digits (info : MetarInfo) (ds : List Char)
    (hlen : ds.length = 4) (hd : allDigits ds = true) :
    qBranch info ('Q' :: ds)
      = { info with
          altimeter := toString (digitsToNat ds) ++ " hectopascals",
          altimeter_hpa := some (digitsToNat ds),
          altimeter_inches := some ((digitsToNat ds : ℚ) / (338639 / 10000 : ℚ)),
          altimeter_default_unit := "hpa" } := by
  have hne : ds ≠ [] := by
    intro hh
    rw [hh] at hlen
    cases hlen
  have hp := parseU32_digits ds hne hd (by rw [hlen]; omega)
  unfold qBranch
  rw [show ('Q' :: ds).drop 1 = ds from rfl, hp]

theorem tailLoop_A_group (info : MetarInfo) (ds : List Char)
    (hlen : ds.length = 4) (hd : allDigits ds = true) :
    tailLoop info [('A' :: ds)] = aBranch info ('A' :: ds) := by
  have hns : ('A' :: ds).contains '/' = false := cons_digits_no_slash 'A' ds rfl hd
  simp only [tailLoop]
  rw [tempBranch_no_slash info _ hns]
  dsimp only
  rw [if_pos ⟨by simp [tok, List.isPrefixOf], by rw [List.length_cons, hlen]⟩]

theorem tailLoop_Q_group (info : MetarInfo) (ds : List Char)
    (hlen : ds.length = 4) (hd : allDigits ds = true) :
    tailLoop info [('Q' :: ds)] = qBranch info ('Q' :: ds) := by
  have hns : ('Q' :: ds).contains '/' = false := cons_digits_no_slash 'Q' ds rfl hd
  simp only [tailLoop]
  rw [tempBranch_no_slash info _ hns]
  dsimp only
  rw [if_neg (by
    rintro ⟨ha, -⟩
    simp [tok, List.isPrefixOf] at ha)]
  rw [if_pos ⟨by simp [tok, List.isPrefixOf], by rw [List.length_cons, hlen]⟩]

/-! Claim theorems. -/

/-- Claim C1: the spec asserts that decoding any input string returns a
fully-formed report without panicking.  The code violates this: in the
`VRB` wind branch it byte-slices `wind[3..5]` guarded only by the
three-character prefix check, so the report `"KJFK VRB0"` makes the
decoder panic with an out-of-range slice, modelled here by `none`. -/
theorem parse_metar_panics_on_vrb0 : parse_metar "KJFK VRB0" "KJFK" = none := rfl

/-- Claim C2 counterexample: for the A-group `A3012` the decoder stores
1019 hPa — the truncation of 30.12 × 33.8639 ≈ 1019.98 — although the
rounded value the claim demands is 1020. -/
theorem altimeter_hpa_not_rounded :
    (tailLoop MetarInfo.default [tok "A3012"]).altimeter_hpa = some 1019 ∧
    round (((3012 : ℚ) / 100) * (338639 / 10000 : ℚ)) = 1020 ∧
    (tailLoop MetarInfo.default [tok "A3012"]).altimeter_hpa
      ≠ some ((round (((3012 : ℚ) / 100) * (338639 / 10000 : ℚ))).toNat) := by
  have hA : tok "A3012" = 'A' :: tok "3012" := by decide
  have hds : digitsToNat (tok "3012") = 3012 := by decide
  have h1 : (tailLoop MetarInfo.default [tok "A3012"]).altimeter_hpa
      = some ((((3012 : ℚ)) / 100 * (338639 / 10000 : ℚ)).floor.toNat) := by
    rw [hA, tailLoop_A_group MetarInfo.default (tok "3012") (by decide) (by decide),
      aBranch_digits MetarInfo.default (tok "3012") (by decide) (by decide), hds]
    norm_num
  have hbr : (((3012 : ℚ)) / 100 * (338639 / 10000 : ℚ)).floor
      = ⌊(((3012 : ℚ)) / 100 * (338639 / 10000 : ℚ))⌋ := rfl
  have hfl : ((((3012 : ℚ)) / 100 * (338639 / 10000 : ℚ))).floor = 1019 := by
    rw [hbr]
    norm_num
  have hrd : round (((3012 : ℚ) / 100) * (338639 / 10000 : ℚ)) = 1020 := by
    rw [round_eq]
    norm_num
  refine ⟨by rw [h1, hfl]; rfl, hrd, ?_⟩
  rw [h1, hfl, hrd]
  decide

/-- Claim C2 (amended): for every incoming decoder state, an A-group
token (letter `A` followed by four digits of value `v`) sets
`altimeter_inches` to `v / 100` and `altimeter_hpa` to the truncation
(floor) of `inches × 33.8639` — the code casts the `f32` product with
`as u32`, truncating toward zero rather than rounding — with default
unit `"inches"`; a Q-group token sets `altimeter_hpa` to `v` and
`altimeter_inches` to `v / 33.8639` (exactly, in the rational model of
`f32`), with default unit `"hpa"`. -/
theorem altimeter_group_semantics (info : MetarInfo) (ds : List Char)
    (hlen : ds.length = 4) (hd : allDigits ds = true) :
    ((tailLoop info [('A' :: ds)]).altimeter_inches = some ((digitsToNat ds : ℚ) / 100) ∧
     (tailLoop info [('A' :: ds)]).altimeter_hpa
       = some (((digitsToNat ds : ℚ) / 100 * (338639 / 10000 : ℚ)).floor.toNat) ∧
     (tailLoop info [('A' :: ds)]).altimeter_default_unit = "inches") ∧
    ((tailLoop info [('Q' :: ds)]).altimeter_hpa = some (digitsToNat ds) ∧
     (tailLoop info [('Q' :: ds)]).altimeter_inches
       = some ((digitsToNat ds : ℚ) / (338639 / 10000 : ℚ)) ∧
     (tailLoop info [('Q' :: ds)]).altimeter_default_unit = "hpa") := by
  rw [tailLoop_A_group info ds hlen hd, aBranch_digits info ds hlen hd,
    tailLoop_Q_group info ds hlen hd, qBranch_digits info ds hlen hd]
  exact ⟨⟨rfl, rfl, rfl⟩, rfl, rfl, rfl⟩

/-- Witness for claim C2 at the concrete groups `A3012` and `Q3012`. -/
theorem altimeter_group_semantics_witness :
    ((tailLoop MetarInfo.default [('A' :: tok "3012")]).altimeter_inches
        = some ((digitsToNat (tok "3012") : ℚ) / 100) ∧
     (tailLoop MetarInfo.default [('A' :: tok "3012")]).altimeter_hpa
        = some (((digitsToNat (tok "3012") : ℚ) / 100 * (338639 / 10000 : ℚ)).floor.toNat) ∧
     (tailLoop MetarInfo.default [('A' :: tok "3012")]).altimeter_default_unit = "inches") ∧
    ((tailLoop MetarInfo.default [('Q' :: tok "3012")]).altimeter_hpa
        = some (digitsToNat (tok "3012")) ∧
     (tailLoop MetarInfo.default [('Q' :: tok "3012")]).altimeter_inches
        = some ((digitsToNat (tok "3012") : ℚ) / (338639 / 10000 : ℚ)) ∧
     (tailLoop MetarInfo.default [('Q' :: tok "3012")]).altimeter_default_unit = "hpa") :=
  altimeter_group_semantics MetarInfo.default (tok "3012") (by decide) (by decide)

/-- Claim C3 counterexample: the malformed 7-character time token
`ABCDEFZ` (ends in `Z`, digits fail to parse) IS consumed: the time
stage returns the remaining tokens `[]`, not the untouched input, while
leaving every time field absent. -/
theorem time_stage_consumes_malformed_ce :
    timeStage MetarInfo.default [tok "ABCDEFZ"] = (MetarInfo.default, []) ∧
    timeStage MetarInfo.default [tok "ABCDEFZ"] ≠ (MetarInfo.default, [tok "ABCDEFZ"]) := by
  refine ⟨by decide, by decide⟩

/-- Claim C3 (amended): when the token at the observation-time position
is exactly 7 characters, ends in `'Z'`, and one of its day/hour/minute
digit fields fails to parse, the time fields are left absent but the
token IS consumed — the cursor advances past it (`i += 1` sits outside
the inner parse match in the source). -/
theorem time_malformed_field_absent_but_consumed (info : MetarInfo) (t : Token)
    (rest : List Token) (h7 : t.length = 7) (hz : t.getLast? = some 'Z')
    (hfail : parseU32 (t.take 2) = none ∨ parseU32 ((t.drop 2).take 2) = none
      ∨ parseU32 ((t.drop 4).take 2) = none) :
    timeStage info (t :: rest) = (info, rest) := by
  simp only [timeStage]
  rw [if_pos ⟨h7, hz⟩]
  rcases h1 : parseU32 (t.take 2) with _ | day <;>
    rcases h2 : parseU32 ((t.drop 2).take 2) with _ | hour <;>
      rcases h3 : parseU32 ((t.drop 4).take 2) with _ | minute
  all_goals try rfl
  rcases hfail with hf | hf | hf
  · rw [h1] at hf
    cases hf
  · rw [h2] at hf
    cases hf
  · rw [h3] at hf
    cases hf

/-- Witness for claim C3 at the token `AB034BZ` followed by `CAVOK`. -/
theorem time_malformed_field_absent_but_consumed_witness :
    timeStage MetarInfo.default [tok "AB034BZ", tok "CAVOK"]
      = (MetarInfo.default, [tok "CAVOK"]) :=
  time_malformed_field_absent_but_consumed MetarInfo.default (tok "AB034BZ") [tok "CAVOK"]
    (by decide) (by decide) (Or.inl (by decide))

/-- Claim C4: the spec asserts that a `"$"` token inside the remarks
section contributes the fragment `Maintenance needed on automated
station`.  The code never does: the remarks loop guard stops at the
first `"$"` without consuming it, which makes the `remark == "$"` arm
inside the loop body dead code, so `"KJFK RMK AO2 $"` decodes with
remarks `"Automated station"` only. -/
theorem remarks_maintenance_never_emitted :
    (parse_metar "KJFK RMK AO2 $" "KJFK").map MetarInfo.remarks = some "Automated station" ∧
    remarksLoop [] [tok "AO2", tok "$"] = (["Automated station"], [tok "$"]) := by
  refine ⟨rfl, rfl⟩

/-- Claim C5: when the token reaching the wind stage (immediately after
the time/modifier stages) is exactly `CAVOK`, the returned report has
the three fixed CAVOK strings for visibility, clouds and weather,
whatever tokens follow: the weather and cloud stages are skipped and
the tail loop never touches those fields. -/
theorem cavok_forces_fixed_fields (info : MetarInfo) (rest : List Token) :
    (decodeFromWind info (tok "CAVOK" :: rest)).map MetarInfo.visibility
      = some "10 kilometers or more" ∧
    (decodeFromWind info (tok "CAVOK" :: rest)).map MetarInfo.clouds
      = some "No clouds below 5,000 feet" ∧
    (decodeFromWind info (tok "CAVOK" :: rest)).map MetarInfo.weather
      = some "None significant" := by
  have hd : decodeFromWind info (tok "CAVOK" :: rest)
      = some (tailLoop
          { info with
              visibility := "10 kilometers or more",
              clouds := "No clouds below 5,000 feet",
              weather := "None significant" } rest) := rfl
  obtain ⟨h1, h2, h3⟩ := tailLoop_keeps_display
    { info with
        visibility := "10 kilometers or more",
        clouds := "No clouds below 5,000 feet",
        weather := "None significant" } rest
  rw [hd]
  simp only [Option.map_some']
  rw [h1, h2, h3]
  exact ⟨rfl, rfl, rfl⟩

/-- Claim C6 counterexample: after the directional wind token `27015KT`,
the following token `12V34` — which has length 5, not the 7 of the
claimed `DDDVDDD` shape — is nevertheless consumed and appended as a
variable-direction clause. -/
theorem varwind_accepts_non_dddvddd :
    windStage MetarInfo.default [tok "27015KT", tok "12V34"]
      = some ({ MetarInfo.default with
          wind := "270 degrees (W) at 15 knots, variable between 12 and 34 degrees" }, []) ∧
    (tok "12V34").length ≠ 7 := by
  refine ⟨rfl, by decide⟩

/-- Claim C6 (amended): after a directional wind token is recognized,
the next token is consumed and appended as a variable-direction clause
exactly when it contains a `'V'`, has length at least 5, and the
substrings before and after the first `'V'` both parse as `u32` — not
only for the exact `DDDVDDD` shape. -/
theorem varwind_peek_accept_iff (s : String) (vw : Token) (rest : List Token) :
    varWindPeek s (vw :: rest)
      = if varWindAccept vw then (s ++ varClause vw, rest) else (s, vw :: rest) := by
  simp only [varWindPeek]
  by_cases hc : ((vw.contains 'V') = true ∧ 5 ≤ vw.length)
  · rw [if_pos hc]
    rcases hf : List.findIdx? (fun c => c = 'V') vw with _ | vpos
    · have hacc : varWindAccept vw = false := by
        simp [varWindAccept, hf]
      rw [hacc]
      simp
    · rcases hp : parseU32 (vw.take vpos) with _ | f
      · have hacc : varWindAccept vw = false := by
          simp [varWindAccept, hf, hp]
        rw [hacc]
        simp [hp]
      · rcases hq : parseU32 (vw.drop (vpos + 1)) with _ | t
        · have hacc : varWindAccept vw = false := by
            simp [varWindAccept, hf, hp, hq]
          rw [hacc]
          simp [hp, hq]
        · have hmem : 'V' ∈ vw := by simpa using hc.1
          have hacc : varWindAccept vw = true := by
            simp [varWindAccept, hf, hp, hq, hmem, hc.2]
          have hcl : varClause vw
              = ", variable between " ++ toString f ++ " and " ++ toString t ++ " degrees" := by
            simp [varClause, hf, hp, hq]
          rw [hacc, hcl]
          simp [hp, hq, String.append_assoc]
  · rw [if_neg hc]
    have h2 : (vw.contains 'V' && decide (5 ≤ vw.length)) = false := by
      by_cases h3 : (vw.contains 'V') = true
      · have h4 : ¬ (5 ≤ vw.length) := fun h5 => hc ⟨h3, h5⟩
        simp [h3, h4]
      · simp [Bool.not_eq_true] at h3
        simp [h3]
    have hacc : varWindAccept vw = false := by
      unfold varWindAccept
      rw [h2, Bool.false_and]
    rw [hacc]
    simp

/-- Claim C7: the displayed Fahrenheit value is computed from the parsed
Celsius value by `F = C×9/5 + 32` with integer division truncating
toward zero (formulated sign-magnitude below), so the group `M05/M10`
displays -5 °C as 23 °F (and -10 °C as 14 °F) — not the -9 °F asserted
by the example of the claim. -/
theorem celsius_conversion_truncates :
    (∀ c : Int, celsius_to_fahrenheit c = 32 + c.sign * (((9 * c.natAbs) / 5 : Nat) : Int)) ∧
    (∀ info : MetarInfo,
      (tailLoop info [tok "M05/M10"]).temperature = "-5°C (23°F)" ∧
      (tailLoop info [tok "M05/M10"]).dewpoint = "-10°C (14°F)") := by
  constructor
  · intro c
    unfold celsius_to_fahrenheit
    have hform : Int.tdiv (c * 9) 5 = c.sign * (((9 * c.natAbs) / 5 : Nat) : Int) := by
      rcases c with n | n
      · cases n with
        | zero => decide
        | succ m =>
          have hs : (Int.ofNat (m + 1)).sign = 1 := rfl
          have habs : (Int.ofNat (m + 1)).natAbs = m + 1 := rfl
          rw [hs, habs, one_mul, Nat.mul_comm 9 (m + 1)]
          have h := Int.ofNat_tdiv ((m + 1) * 9) 5
          have hmul : Int.ofNat (m + 1) * 9 = Int.ofNat ((m + 1) * 9) := by
            rw [Int.ofNat_eq_natCast, Int.ofNat_eq_natCast]
            push_cast
            ring
          rw [hmul]
          exact_mod_cast h.symm
      · have hs : (Int.negSucc n).sign = -1 := rfl
        have habs : (Int.negSucc n).natAbs = n + 1 := rfl
        rw [hs, habs, Nat.mul_comm 9 (n + 1)]
        have hmul : Int.negSucc n * 9 = -Int.ofNat ((n + 1) * 9) := by
          rw [Int.negSucc_eq, Int.ofNat_eq_natCast]
          push_cast
          ring
        rw [hmul, Int.neg_tdiv]
        have h2 : (Int.ofNat ((n + 1) * 9)).tdiv 5 = ((((n + 1) * 9) / 5 : ℕ) : ℤ) := by
          exact_mod_cast (Int.ofNat_tdiv ((n + 1) * 9) 5).symm
        rw [h2]
        push_cast
        ring
    rw [hform]
    ring
  · intro info
    exact ⟨rfl, rfl⟩

/-- Claim C7 counterexample: the example value of the claim is wrong: the
code maps -5 °C to 23 °F, not to -9 °F. -/
theorem celsius_minus_five_is_23 :
    celsius_to_fahrenheit (-5) = 23 ∧ celsius_to_fahrenheit (-5) ≠ -9 := by
  refine ⟨by decide, by decide⟩

/-- Claim C9: a later recognized altimeter group unconditionally
overwrites all four altimeter fields whatever the incoming state
contains, so after `A3012 Q1015` the report carries exactly the
values of the Q-group with default unit `"hpa"`; the A-group alone would
have stored 1019 hPa instead. -/
theorem later_altimeter_group_overwrites (info : MetarInfo) :
    tailLoop info [tok "A3012", tok "Q1015"]
      = { info with
          altimeter := "1015 hectopascals",
          altimeter_hpa := some 1015,
          altimeter_inches := some ((1015 : ℚ) / (338639 / 10000 : ℚ)),
          altimeter_default_unit := "hpa" } ∧
    (tailLoop MetarInfo.default [tok "A3012"]).altimeter_hpa = some 1019 := by
  constructor
  · have hQ : tok "Q1015" = 'Q' :: tok "1015" := by decide
    have hA : tok "A3012" = 'A' :: tok "3012" := by decide
    have h1 : tailLoop info [tok "A3012", tok "Q1015"]
        = tailLoop (aBranch info (tok "A3012")) [tok "Q1015"] := by
      simp only [tailLoop]
      rw [tempBranch_no_slash info _ (by rw [hA]; exact cons_digits_no_slash 'A' _ rfl (by decide))]
      dsimp only
      rw [if_pos ⟨by decide, by decide⟩]
    rw [h1, hQ, tailLoop_Q_group _ (tok "1015") (by decide) (by decide),
      qBranch_digits _ (tok "1015") (by decide) (by decide)]
    obtain ⟨a1, hp1, ic1, u1, ha⟩ := aBranch_shape info (tok "A3012")
    rw [ha]
    have hds : digitsToNat (tok "1015") = 1015 := by decide
    rw [hds]
    rfl
  · have hA : tok "A3012" = 'A' :: tok "3012" := by decide
    have hds : digitsToNat (tok "3012") = 3012 := by decide
    have h1 : (tailLoop MetarInfo.default [tok "A3012"]).altimeter_hpa
        = some ((((3012 : ℚ)) / 100 * (338639 / 10000 : ℚ)).floor.toNat) := by
      rw [hA, tailLoop_A_group MetarInfo.default (tok "3012") (by decide) (by decide),
        aBranch_digits MetarInfo.default (tok "3012") (by decide) (by decide), hds]
      norm_num
    have hbr : (((3012 : ℚ)) / 100 * (338639 / 10000 : ℚ)).floor
        = ⌊(((3012 : ℚ)) / 100 * (338639 / 10000 : ℚ))⌋ := rfl
    have hfl : ((((3012 : ℚ)) / 100 * (338639 / 10000 : ℚ))).floor = 1019 := by
      rw [hbr]
      norm_num
    rw [h1, hfl]
    rfl

/-- Claim C10: a token with a `FEW`/`SCT`/`BKN`/`OVC` coverage prefix
whose length is below six or whose three height characters fail to
parse is consumed by the cloud loop, contributes no layer, and the loop
continues with the remaining tokens. -/
theorem cloud_malformed_token_skipped (layers : List String) (t : Token) (rest : List Token)
    (hpre : (tok "FEW").isPrefixOf t = true ∨ (tok "SCT").isPrefixOf t = true
      ∨ (tok "BKN").isPrefixOf t = true ∨ (tok "OVC").isPrefixOf t = true)
    (hbad : t.length < 6 ∨ parseU32 ((t.drop 3).take 3) = none) :
    cloudLoop layers (t :: rest) = cloudLoop layers rest := by
  have happend : cloudLayerAppend layers t = layers := by
    unfold cloudLayerAppend
    rcases hbad with hb | hb
    · rw [if_neg]
      rintro ⟨-, h6⟩
      omega
    · split
      · rw [hb]
      · rfl
  rcases hpre with h | h | h | h <;>
    obtain ⟨u, rfl⟩ := List.isPrefixOf_iff_prefix.mp h
  · rw [show tok "FEW" ++ u = 'F' :: 'E' :: 'W' :: u from rfl] at happend ⊢
    have ht : (tok "FEW").isPrefixOf ('F' :: 'E' :: 'W' :: u) = true := by
      simp [tok, List.isPrefixOf]
    simp [cloudLoop, ht, happend,
      show (tok "SKC").isPrefixOf ('F' :: 'E' :: 'W' :: u) = false from rfl,
      show (tok "CLR").isPrefixOf ('F' :: 'E' :: 'W' :: u) = false from rfl,
      show (tok "NSC").isPrefixOf ('F' :: 'E' :: 'W' :: u) = false from rfl,
      show (tok "NCD").isPrefixOf ('F' :: 'E' :: 'W' :: u) = false from rfl,
      show (tok "VV").isPrefixOf ('F' :: 'E' :: 'W' :: u) = false from rfl]
  · rw [show tok "SCT" ++ u = 'S' :: 'C' :: 'T' :: u from rfl] at happend ⊢
    have ht : (tok "SCT").isPrefixOf ('S' :: 'C' :: 'T' :: u) = true := by
      simp [tok, List.isPrefixOf]
    simp [cloudLoop, ht, happend,
      show (tok "SKC").isPrefixOf ('S' :: 'C' :: 'T' :: u) = false from rfl,
      show (tok "CLR").isPrefixOf ('S' :: 'C' :: 'T' :: u) = false from rfl,
      show (tok "NSC").isPrefixOf ('S' :: 'C' :: 'T' :: u) = false from rfl,
      show (tok "NCD").isPrefixOf ('S' :: 'C' :: 'T' :: u) = false from rfl,
      show (tok "VV").isPrefixOf ('S' :: 'C' :: 'T' :: u) = false from rfl,
      show (tok "FEW").isPrefixOf ('S' :: 'C' :: 'T' :: u) = false from rfl]
  · rw [show tok "BKN" ++ u = 'B' :: 'K' :: 'N' :: u from rfl] at happend ⊢
    have ht : (tok "BKN").isPrefixOf ('B' :: 'K' :: 'N' :: u) = true := by
      simp [tok, List.isPrefixOf]
    simp [cloudLoop, ht, happend,
      show (tok "SKC").isPrefixOf ('B' :: 'K' :: 'N' :: u) = false from rfl,
      show (tok "CLR").isPrefixOf ('B' :: 'K' :: 'N' :: u) = false from rfl,
      show (tok "NSC").isPrefixOf ('B' :: 'K' :: 'N' :: u) = false from rfl,
      show (tok "NCD").isPrefixOf ('B' :: 'K' :: 'N' :: u) = false from rfl,
      show (tok "VV").isPrefixOf ('B' :: 'K' :: 'N' :: u) = false from rfl,
      show (tok "FEW").isPrefixOf ('B' :: 'K' :: 'N' :: u) = false from rfl,
      show (tok "SCT").isPrefixOf ('B' :: 'K' :: 'N' :: u) = false from rfl]
  · rw [show tok "OVC" ++ u = 'O' :: 'V' :: 'C' :: u from rfl] at happend ⊢
    have ht : (tok "OVC").isPrefixOf ('O' :: 'V' :: 'C' :: u) = true := by
      simp [tok, List.isPrefixOf]
    simp [cloudLoop, ht, happend,
      show (tok "SKC").isPrefixOf ('O' :: 'V' :: 'C' :: u) = false from rfl,
      show (tok "CLR").isPrefixOf ('O' :: 'V' :: 'C' :: u) = false from rfl,
      show (tok "NSC").isPrefixOf ('O' :: 'V' :: 'C' :: u) = false from rfl,
      show (tok "NCD").isPrefixOf ('O' :: 'V' :: 'C' :: u) = false from rfl,
      show (tok "VV").isPrefixOf ('O' :: 'V' :: 'C' :: u) = false from rfl,
      show (tok "FEW").isPrefixOf ('O' :: 'V' :: 'C' :: u) = false from rfl,
      show (tok "SCT").isPrefixOf ('O' :: 'V' :: 'C' :: u) = false from rfl,
      show (tok "BKN").isPrefixOf ('O' :: 'V' :: 'C' :: u) = false from rfl]

/-- Witness for claim C10 at the short coverage token `FEW12`. -/
theorem cloud_malformed_token_skipped_witness :
    ((tok "FEW").isPrefixOf (tok "FEW12") = true ∧ (tok "FEW12").length < 6) ∧
    cloudLoop [] [tok "FEW12"] = cloudLoop [] [] :=
  ⟨⟨by decide, by decide⟩,
    cloud_malformed_token_skipped [] (tok "FEW12") [] (Or.inl (by decide)) (Or.inl (by decide))⟩

/-- Claim C8: for every input on which the decoder returns (does not
panic), the report pairs its numeric and formatted fields: each of the
three zulu-time numbers is present exactly when the formatted date
string is non-empty, and each of the two numeric altimeter values is
present exactly when the formatted altimeter string is non-empty. -/
theorem parse_metar_numeric_iff_formatted (metar icao : String) (r : MetarInfo)
    (h : parse_metar metar icao = some r) :
    (r.zulu_day.isSome = true ↔ r.date_time ≠ "") ∧
    (r.zulu_hour.isSome = true ↔ r.date_time ≠ "") ∧
    (r.zulu_minute.isSome = true ↔ r.date_time ≠ "") ∧
    (r.altimeter_hpa.isSome = true ↔ r.altimeter ≠ "") ∧
    (r.altimeter_inches.isSome = true ↔ r.altimeter ≠ "") := by
  have hinit : GoodInfo { MetarInfo.default with station := icao, raw := metar } := by
    refine ⟨?_, ?_, ?_, ?_, ?_⟩ <;> simp [MetarInfo.default]
  have hgood : GoodInfo r := by
    unfold parse_metar at h
    rcases hsp : splitWs metar.toList with _ | ⟨p0, rest0⟩ <;> rw [hsp] at h <;> dsimp only at h
    · obtain rfl := Option.some.inj h
      exact hinit
    · unfold decodeAfterStation at h
      rcases hq : (if p0 = tok "METAR" ∨ p0 = tok "SPECI" then rest0 else p0 :: rest0)
        with _ | ⟨p, rest⟩ <;> rw [hq] at h <;> dsimp only at h
      · exact decodeFromTime_good _ _ _ hinit h
      · refine decodeFromTime_good _ _ _ ?_ h
        exact hinit
  exact hgood

/-- Witness for claim C8 at the empty report. -/
theorem parse_metar_numeric_iff_formatted_witness :
    ((({ MetarInfo.default with station := "K", raw := "" } : MetarInfo).zulu_day.isSome = true
        ↔ ({ MetarInfo.default with station := "K", raw := "" } : MetarInfo).date_time ≠ "") ∧
     (({ MetarInfo.default with station := "K", raw := "" } : MetarInfo).zulu_hour.isSome = true
        ↔ ({ MetarInfo.default with station := "K", raw := "" } : MetarInfo).date_time ≠ "") ∧
     (({ MetarInfo.default with station := "K", raw := "" } : MetarInfo).zulu_minute.isSome = true
        ↔ ({ MetarInfo.default with station := "K", raw := "" } : MetarInfo).date_time ≠ "") ∧
     (({ MetarInfo.default with station := "K", raw := "" } : MetarInfo).altimeter_hpa.isSome = true
        ↔ ({ MetarInfo.default with station := "K", raw := "" } : MetarInfo).altimeter ≠ "") ∧
     (({ MetarInfo.default with station := "K", raw := "" } : MetarInfo).altimeter_inches.isSome = true
        ↔ ({ MetarInfo.default with station := "K", raw := "" } : MetarInfo).altimeter ≠ "")) :=
  parse_metar_numeric_iff_formatted "" "K"
    { MetarInfo.default with station := "K", raw := "" } rfl
